import Mathlib

/-!
Verification development for `pmwd/modes.py`: white-noise sampling,
the safe square root with its custom VJP, and linear (Gaussian and
local-type non-Gaussian) mode synthesis.

Modelling conventions:
* Grids are indexed by `ℕ × ℕ × ℕ`; an array of shape `(n₀, n₁, n₂)` is a
  total function on indices, with only the entries below the shape relevant.
* Floating-point arithmetic is modelled by exact real/complex arithmetic.
* Collaborator code that is not part of the source file
  (`pmwd.pm_util.fftfwd/fftinv/fftfreq`, `jnp.fft.rfftn/irfftn`,
  `jax.random`, `pmwd.boltzmann.linear_power/linear_transfer`, and the
  `Configuration`/`Cosmology` containers) is modelled from the spec, either
  as abstract operation bundles whose contracts appear as hypotheses, or as
  concrete definitions following the spec's words.
-/

namespace Pmwd

noncomputable section

/-- Index into a three-dimensional grid. -/
abbrev Ix : Type := ℕ × ℕ × ℕ

/-- A grid shape: extents along the three axes. -/
abbrev Shape : Type := ℕ × ℕ × ℕ

/-- A real-valued grid array (e.g. a `jax.Array` of real dtype). -/
abbrev RField : Type := Ix → ℝ

/-- A complex-valued grid array (spectral representation). -/
abbrev CField : Type := Ix → ℂ

/-- A modes array is either real-valued (configuration space) or
complex-valued (Fourier space); this models the runtime dtype that
`jnp.isrealobj` inspects. -/
inductive MArr : Type
  | rspace (f : RField)
  | fourier (f : CField)

/-- Modelled from the spec: the `Configuration` container (external to the
source file).  It carries the particle grid shape and spacing; cell volume,
box volume and particle count are the derived quantities, mutually
consistent per the spec's invariant (volume = spacing³ × grid extents). -/
structure Configuration : Type where
  ptcl_grid_shape : Shape
  ptcl_spacing : ℝ

/-- Total particle count `conf.ptcl_num` (product of the grid extents). -/
def Configuration.ptcl_num (conf : Configuration) : ℕ :=
  conf.ptcl_grid_shape.1 * conf.ptcl_grid_shape.2.1 * conf.ptcl_grid_shape.2.2

/-- Cell volume `conf.ptcl_cell_vol = ptcl_spacing³`. -/
def Configuration.ptcl_cell_vol (conf : Configuration) : ℝ :=
  conf.ptcl_spacing ^ 3

/-- Box volume `conf.box_vol = ptcl_cell_vol * ptcl_num`. -/
def Configuration.box_vol (conf : Configuration) : ℝ :=
  conf.ptcl_cell_vol * conf.ptcl_num

/-- Modelled from the spec: the `Cosmology` container (external to the
source file): primordial amplitude `A_s`, tilt `n_s`, pivot `k_pivot`, the
optional local non-Gaussianity amplitude `f_nl` together with the flag
`f_nl_loc_` indicating whether local-type non-Gaussianity is active. -/
structure Cosmology : Type where
  A_s : ℝ
  n_s : ℝ
  k_pivot : ℝ
  f_nl : ℝ
  f_nl_loc_ : Bool

/-- The amplitude read by the source as `cosmo.f_nl_loc` (line 133). -/
def Cosmology.f_nl_loc (cosmo : Cosmology) : ℝ := cosmo.f_nl

/-- Replace only the `f_nl` amplitude of a cosmology. -/
def Cosmology.withFnl (cosmo : Cosmology) (v : ℝ) : Cosmology :=
  ⟨cosmo.A_s, cosmo.n_s, cosmo.k_pivot, v, cosmo.f_nl_loc_⟩

/-- Replace only the non-Gaussianity flag of a cosmology. -/
def Cosmology.withFlag (cosmo : Cosmology) (b : Bool) : Cosmology :=
  ⟨cosmo.A_s, cosmo.n_s, cosmo.k_pivot, cosmo.f_nl, b⟩

/-- Normalization convention of a transform: `'ortho'` or the physical
convention tied to the grid spacing (`norm=conf.ptcl_spacing`). -/
inductive Norm : Type
  | ortho
  | phys (spacing : ℝ)

/-- Modelled from the spec: the Fourier-transform collaborators
(`pmwd.pm_util.fftfwd`/`fftinv` and `jnp.fft.rfftn`/`irfftn`), which are
external to the source file.  `fftfwd`/`rfftn` map a real grid of the given
real-space shape to its (half-)spectrum; `fftinv`/`irfftn` map back.  Their
contracts (linearity, round trips) enter the theorems as hypotheses. -/
structure Transforms : Type where
  fftfwd : Norm → Shape → RField → CField
  fftinv : Norm → Shape → CField → RField
  rfftn : Shape → RField → CField
  irfftn : Shape → CField → RField

/-- Modelled from the spec: the deterministic RNG sampler collaborator
(`jax.random`, external to the source file): `PRNGKey` maps an integer seed
to a key, and `normal` maps a key and shape to a grid of standard-normal
samples; both are pure functions of their arguments (the sampler's only
state is the seed). -/
structure Sampler : Type where
  PRNGKey : ℕ → ℕ
  normal : ℕ → Shape → RField

/-- Modelled from the spec: the Boltzmann collaborators
(`pmwd.boltzmann.linear_power`/`linear_transfer`, external to the source
file), evaluated pointwise in the wavenumber magnitude `k`, with the
optional scale factor, cosmology and configuration as further inputs. -/
structure Boltzmann : Type where
  linear_power : ℝ → Option ℝ → Cosmology → Configuration → ℝ
  linear_transfer : ℝ → Option ℝ → Cosmology → Configuration → ℝ

/-- Modelled from the spec: `fftfreq` index folding — on a full FFT axis of
extent `n`, index `i` represents integer frequency `i` for `2 i < n` and
`i - n` otherwise. -/
def freqIdx (n i : ℕ) : ℤ :=
  if 2 * i < n then (i : ℤ) else (i : ℤ) - (n : ℤ)

/-- Modelled from the spec: the angular wavenumber of index `i` on a full
FFT axis of extent `n` with grid spacing `s`. -/
def kcomp (n : ℕ) (s : ℝ) (i : ℕ) : ℝ :=
  2 * Real.pi * (freqIdx n i : ℝ) / ((n : ℝ) * s)

/-- Modelled from the spec: the angular wavenumber of index `i` on the
reduced (half-spectrum) axis, where frequencies are all nonnegative. -/
def kcompHalf (n : ℕ) (s : ℝ) (i : ℕ) : ℝ :=
  2 * Real.pi * (i : ℝ) / ((n : ℝ) * s)

/-- Radial wavenumber magnitude `k = sqrt(sum of squared components)`
(source lines 97–98), built from the spec-modelled `fftfreq` components. -/
def kmag (conf : Configuration) : RField := fun ix =>
  Real.sqrt (kcomp conf.ptcl_grid_shape.1 conf.ptcl_spacing ix.1 ^ 2
    + kcomp conf.ptcl_grid_shape.2.1 conf.ptcl_spacing ix.2.1 ^ 2
    + kcompHalf conf.ptcl_grid_shape.2.2 conf.ptcl_spacing ix.2.2 ^ 2)

/-- Forward evaluation of `_safe_sqrt` (source lines 52–54): elementwise
square root. -/
def _safe_sqrt (x : RField) : RField := fun i => Real.sqrt (x i)

/-- `_safe_sqrt_fwd` (source lines 56–58): returns the forward value and
saves it as the residual for the backward pass. -/
def _safe_sqrt_fwd (x : RField) : RField × RField :=
  (_safe_sqrt x, _safe_sqrt x)

/-- `_safe_sqrt_bwd` (source lines 60–62): custom VJP rule
`x_cot = where(y != 0, 0.5 / y * y_cot, 0)`. -/
def _safe_sqrt_bwd (y y_cot : RField) : RField := fun i =>
  if y i ≠ 0 then 0.5 / y i * y_cot i else 0

/-- `white_noise` (source lines 12–49). -/
def white_noise (T : Transforms) (S : Sampler) (seed : ℕ)
    (conf : Configuration) (real unit_abs : Bool) : MArr :=
  let key := S.PRNGKey seed
  let modes := S.normal key conf.ptcl_grid_shape
  if real && !unit_abs then .rspace modes
  else
    let m := T.fftfwd .ortho conf.ptcl_grid_shape modes
    let m := if unit_abs then fun i => m i / (Complex.abs (m i) : ℂ) else m
    if real then .rspace (T.fftinv .ortho conf.ptcl_grid_shape m) else .fourier m

/-- A sequence of `white_noise` calls (each call is a pure function of its
seed and flags; there is no generator state threaded between calls). -/
def whiteNoiseCalls (T : Transforms) (S : Sampler) (conf : Configuration)
    (calls : List (ℕ × Bool × Bool)) : List MArr :=
  calls.map fun c => white_noise T S c.1 conf c.2.1 c.2.2

/-- `jnp.fft.fftshift(·, axes=[0,1])` on a grid whose first two extents are
`n₀, n₁`: roll both axes by half the extent, so entry `i` of the output is
entry `(i + n - n/2) % n` of the input along each shifted axis. -/
def fftshift01 (n₀ n₁ : ℕ) (f : CField) : CField := fun ix =>
  f ((ix.1 + (n₀ - n₀ / 2)) % n₀, (ix.2.1 + (n₁ - n₁ / 2)) % n₁, ix.2.2)

/-- `jnp.fft.ifftshift(·, axes=[0,1])`: roll both axes by minus half the
extent, so entry `i` of the output is entry `(i + n/2) % n` of the input. -/
def ifftshift01 (n₀ n₁ : ℕ) (f : CField) : CField := fun ix =>
  f ((ix.1 + n₀ / 2) % n₀, (ix.2.1 + n₁ / 2) % n₁, ix.2.2)

/-- `jnp.pad` with widths `((p₀,p₀),(p₁,p₁),(0,p₂))` of an array whose
extents are `(m₀, m₁, m₂)`: the original block sits at offset `(p₀, p₁, 0)`
and everything else is zero. -/
def pad3 (p₀ p₁ m₀ m₁ m₂ : ℕ) (f : CField) : CField := fun ix =>
  if p₀ ≤ ix.1 ∧ ix.1 < p₀ + m₀ ∧ p₁ ≤ ix.2.1 ∧ ix.2.1 < p₁ + m₁ ∧ ix.2.2 < m₂
  then f (ix.1 - p₀, ix.2.1 - p₁, ix.2.2) else 0

/-- The slice `[q₀:-q₀, q₁:-q₁, :-q₂]`: entry `(i, j, l)` of the output is
entry `(i + q₀, j + q₁, l)` of the input (the `:-q₂` only trims the third
extent). -/
def crop3 (q₀ q₁ : ℕ) (f : CField) : CField := fun ix =>
  f (ix.1 + q₀, ix.2.1 + q₁, ix.2.2)

/-- Shape of `jnp.fft.rfftn` output for a real grid of shape `sh`: the last
axis is reduced to `n₂ / 2 + 1`. -/
def halfShape (sh : Shape) : Shape := (sh.1, sh.2.1, sh.2.2 / 2 + 1)

/-- Shape of the padded half-spectrum produced by the anti-aliasing pad
(source line 119): each of the first two axes grows by `n/4` on both sides,
the reduced axis by `n₂/4` on its single padded side. -/
def padHalfShape (conf : Configuration) : Shape :=
  (conf.ptcl_grid_shape.1 + 2 * (conf.ptcl_grid_shape.1 / 4),
   conf.ptcl_grid_shape.2.1 + 2 * (conf.ptcl_grid_shape.2.1 / 4),
   conf.ptcl_grid_shape.2.2 / 2 + 1 + conf.ptcl_grid_shape.2.2 / 4)

/-- Shape produced by the crop slice (source line 127) from a grid of shape
`s`.  The slice is `[n//4 : -n//4]` per full axis and `[: -n₂//4]` on the
reduced axis, and Python's `-n//4` is `(-n)//4 = -⌈n/4⌉` (floor division of
a negative numerator), so each full axis loses `⌊n/4⌋` at the front and
`⌈n/4⌉ = (n+3)/4` at the back, and the reduced axis loses `⌈n₂/4⌉`. -/
def cropShape (conf : Configuration) (s : Shape) : Shape :=
  (s.1 - (conf.ptcl_grid_shape.1 / 4 + (conf.ptcl_grid_shape.1 + 3) / 4),
   s.2.1 - (conf.ptcl_grid_shape.2.1 / 4 + (conf.ptcl_grid_shape.2.1 + 3) / 4),
   s.2.2 - (conf.ptcl_grid_shape.2.2 + 3) / 4)

/-- Real-space shape of the padded grid: `jnp.fft.irfftn` of the padded
half-spectrum has last extent `2 * (n₂/2 + n₂/4)` (source line 123). -/
def paddedShape (conf : Configuration) : Shape :=
  (conf.ptcl_grid_shape.1 + 2 * (conf.ptcl_grid_shape.1 / 4),
   conf.ptcl_grid_shape.2.1 + 2 * (conf.ptcl_grid_shape.2.1 / 4),
   2 * (conf.ptcl_grid_shape.2.2 / 2 + conf.ptcl_grid_shape.2.2 / 4))

/-- Anti-aliasing pad step (source lines 118–120): center the spectrum with
`fftshift`, zero-pad the two full axes by a quarter of the grid extent on
each side and the reduced axis by a quarter on its single padded side,
rescale by `(3/2)³`, and undo the centering on the padded grid. -/
def ngPad (conf : Configuration) (f : CField) : CField :=
  let n₀ := conf.ptcl_grid_shape.1
  let n₁ := conf.ptcl_grid_shape.2.1
  let n₂ := conf.ptcl_grid_shape.2.2
  ifftshift01 (n₀ + 2 * (n₀ / 4)) (n₁ + 2 * (n₁ / 4))
    (fun ix => pad3 (n₀ / 4) (n₁ / 4) n₀ n₁ (n₂ / 2 + 1)
      (fftshift01 n₀ n₁ f) ix * ((3 / 2 : ℂ)) ^ 3)

/-- Downsampling crop step (source lines 126–128): center the padded
spectrum, crop with the slice `[n//4:-n//4, n//4:-n//4, :-n₂//4]` (whose
stops are Python's `(-n)//4 = -⌈n/4⌉`, so a full axis keeps the entries
from offset `⌊n/4⌋` up to `⌈n/4⌉` before the padded end), rescale by
`1/(3/2)³`, and undo the centering — the closing `ifftshift` acts on the
actual cropped extents, which equal the original extents only when the
grid extents are divisible by 4. -/
def ngCrop (conf : Configuration) (f : CField) : CField :=
  let n₀ := conf.ptcl_grid_shape.1
  let n₁ := conf.ptcl_grid_shape.2.1
  let m := cropShape conf (padHalfShape conf)
  ifftshift01 m.1 m.2.1
    (fun ix => crop3 (n₀ / 4) (n₁ / 4)
      (fftshift01 (n₀ + 2 * (n₀ / 4)) (n₁ + 2 * (n₁ / 4)) f) ix / ((3 / 2 : ℂ)) ^ 3)

/-- `Tlin` of the non-Gaussian branch (source line 107):
`linear_transfer(k, a, cosmo, conf) * k * k`. -/
def Tlin (B : Boltzmann) (cosmo : Cosmology) (conf : Configuration)
    (a : Option ℝ) : RField := fun i =>
  B.linear_transfer (kmag conf i) a cosmo conf * kmag conf i * kmag conf i

/-- Primordial curvature spectrum (source lines 108–109):
`Pprim = 2 π² A_s (k/k_pivot)^(n_s - 1) k^(-3)`. -/
def Pprim (cosmo : Cosmology) (conf : Configuration) : RField := fun i =>
  2 * Real.pi ^ 2 * cosmo.A_s * (kmag conf i / cosmo.k_pivot) ^ (cosmo.n_s - 1)
    * kmag conf i ^ (-(3 : ℝ))

/-- `Pprim.at[0,0,0].set(0.)` (source line 110): the DC entry is set to
exactly zero. -/
def PprimZ (cosmo : Cosmology) (conf : Configuration) : RField := fun i =>
  if i = ((0, 0, 0) : Ix) then 0 else Pprim cosmo conf i

/-- Scaling of the white-noise modes by the primordial amplitude (source
line 112): `modes *= _safe_sqrt(Pprim / conf.ptcl_cell_vol)`. -/
def ngScaled (cosmo : Cosmology) (conf : Configuration) (modesC : CField) :
    CField := fun i =>
  modesC i
    * Complex.ofReal (_safe_sqrt (fun j => PprimZ cosmo conf j / conf.ptcl_cell_vol) i)

/-- Half-spectrum of the potential-like Gaussian field (source lines
114–115): inverse-transform the scaled modes to real space with the
orthonormal convention, then re-express with `jnp.fft.rfftn`. -/
def ngHalf (T : Transforms) (cosmo : Cosmology) (conf : Configuration)
    (modesC : CField) : CField :=
  T.rfftn conf.ptcl_grid_shape
    (T.fftinv .ortho conf.ptcl_grid_shape (ngScaled cosmo conf modesC))

/-- The real-space Gaussian field entering the combination (source line
131): `jnp.fft.irfftn` of the half-spectrum. -/
def ngGauss (T : Transforms) (cosmo : Cosmology) (conf : Configuration)
    (modesC : CField) : RField :=
  T.irfftn conf.ptcl_grid_shape (ngHalf T cosmo conf modesC)

/-- The squared field: pad (lines 118–120), inverse-transform on the padded
grid, square pointwise, forward-transform (line 123), crop (lines 126–128),
and inverse-transform on the original grid (line 132). -/
def ngSq (T : Transforms) (cosmo : Cosmology) (conf : Configuration)
    (modesC : CField) : RField :=
  T.irfftn conf.ptcl_grid_shape
    (ngCrop conf
      (T.rfftn (paddedShape conf)
        (fun i => T.irfftn (paddedShape conf) (ngPad conf (ngHalf T cosmo conf modesC)) i ^ 2)))

/-- Mean of a real grid array of shape `sh` (`jnp.mean`, source line 133). -/
def gridMean (sh : Shape) (f : RField) : ℝ :=
  (∑ i ∈ Finset.range sh.1, ∑ j ∈ Finset.range sh.2.1,
    ∑ l ∈ Finset.range sh.2.2, f (i, j, l)) / ((sh.1 * sh.2.1 * sh.2.2 : ℕ) : ℝ)

/-- `astype(conf.float_dtype)` (source line 134): in the exact-arithmetic
model the dtype cast is value-preserving. -/
def astype (f : RField) : RField := f

/-- The non-Gaussian branch of `linear_modes` (source lines 106–138):
combine the Gaussian field with `3/5 * f_nl * (squared - mean)` (line 133),
cast (line 134), forward-transform with the orthonormal convention and
apply `Tlin * box_vol / sqrt(ptcl_num)` (lines 137–138). -/
def ngBranch (B : Boltzmann) (T : Transforms) (cosmo : Cosmology)
    (conf : Configuration) (a : Option ℝ) (modesC : CField) : CField := fun i =>
  T.fftfwd .ortho conf.ptcl_grid_shape
    (astype (fun x => ngGauss T cosmo conf modesC x
      + 3 / 5 * cosmo.f_nl_loc
        * (ngSq T cosmo conf modesC x
          - gridMean conf.ptcl_grid_shape (ngSq T cosmo conf modesC)))) i
    * Complex.ofReal (Tlin B cosmo conf a i * conf.box_vol / Real.sqrt conf.ptcl_num)

/-- The Gaussian branch of `linear_modes` (source lines 139–141):
`modes *= _safe_sqrt(Plin * conf.box_vol)`. -/
def gaussBranch (B : Boltzmann) (cosmo : Cosmology) (conf : Configuration)
    (a : Option ℝ) (modesC : CField) : CField := fun i =>
  modesC i
    * Complex.ofReal
        (_safe_sqrt (fun j => B.linear_power (kmag conf j) a cosmo conf * conf.box_vol) i)

/-- Input normalization of `linear_modes` (source lines 103–104): a
real-dtype input is forward-transformed with the orthonormal convention, a
complex input is used as is. -/
def toFourier (T : Transforms) (conf : Configuration) (modes : MArr) : CField :=
  match modes with
  | .rspace r => T.fftfwd .ortho conf.ptcl_grid_shape r
  | .fourier c => c

/-- `linear_modes` (source lines 67–146).  The optional scale factor `a` is
forwarded to the Boltzmann collaborators (the `asarray` cast of lines
100–101 is value-preserving in the exact model). -/
def linear_modes (B : Boltzmann) (T : Transforms) (modes : MArr)
    (cosmo : Cosmology) (conf : Configuration) (a : Option ℝ) (real : Bool) :
    MArr :=
  let modesC := toFourier T conf modes
  let out : CField :=
    if cosmo.f_nl_loc_ then ngBranch B T cosmo conf a modesC
    else gaussBranch B cosmo conf a modesC
  if real then .rspace (T.fftinv (.phys conf.ptcl_spacing) conf.ptcl_grid_shape out)
  else .fourier out

/-- Error raised by the array library when operand shapes are incompatible
under broadcasting. -/
inductive BroadcastError : Type
  | incompatible

/-- Modelled from the spec: numpy-style broadcasting of one axis pair —
equal extents pass through, an extent of 1 is stretched, anything else is
an error (`None`). -/
def broadcastDim (a b : ℕ) : Option ℕ :=
  if a = b then some a else if a = 1 then some b else if b = 1 then some a else none

/-- Index map realizing broadcasting: an axis of extent 1 is always read at
index 0. -/
def bIdx (n i : ℕ) : ℕ := if n = 1 then 0 else i

/-- A complex grid array together with its runtime shape, for modelling the
shape semantics of `jnp` elementwise products. -/
structure ShapedC : Type where
  shape : Shape
  data : CField

/-- Modelled from the spec: the `jnp` elementwise product with numpy
broadcasting, as invoked by `modes *= _safe_sqrt(...)` (source lines 112
and 141): compatible shapes broadcast silently, incompatible shapes raise
an error. -/
def bmul (x y : ShapedC) : Except BroadcastError ShapedC :=
  match broadcastDim x.shape.1 y.shape.1, broadcastDim x.shape.2.1 y.shape.2.1,
      broadcastDim x.shape.2.2 y.shape.2.2 with
  | some n₀, some n₁, some n₂ =>
      .ok ⟨(n₀, n₁, n₂), fun ix =>
        x.data (bIdx x.shape.1 ix.1, bIdx x.shape.2.1 ix.2.1, bIdx x.shape.2.2 ix.2.2)
          * y.data (bIdx y.shape.1 ix.1, bIdx y.shape.2.1 ix.2.1, bIdx y.shape.2.2 ix.2.2)⟩
  | _, _, _ => .error BroadcastError.incompatible

/-- Whether an `Except` result is a success. -/
def isOkB (e : Except BroadcastError ShapedC) : Bool :=
  match e with
  | .ok _ => true
  | .error _ => false

/-- The Gaussian-branch scaling `modes *= _safe_sqrt(Plin * conf.box_vol)`
(source line 141) with runtime shapes: the white-noise modes array is
multiplied by the wavenumber-grid array of shape `halfShape
conf.ptcl_grid_shape`, under the array library's broadcasting rules; the
source performs no explicit shape validation of its own. -/
def gaussScaleShaped (B : Boltzmann) (modes : ShapedC) (cosmo : Cosmology)
    (conf : Configuration) (a : Option ℝ) : Except BroadcastError ShapedC :=
  bmul modes
    ⟨halfShape conf.ptcl_grid_shape,
     fun i => Complex.ofReal
       (_safe_sqrt (fun j => B.linear_power (kmag conf j) a cosmo conf * conf.box_vol) i)⟩

/-- A trivial transform bundle (all zero), used to instantiate theorems at
concrete inputs. -/
def T0 : Transforms :=
  ⟨fun _ _ _ _ => 0, fun _ _ _ _ => 0, fun _ _ _ => 0, fun _ _ _ => 0⟩

/-- A trivial sampler, used to instantiate theorems at concrete inputs. -/
def S0 : Sampler := ⟨id, fun _ _ _ => 0⟩

/-- A trivial Boltzmann bundle (zero power and transfer), used to
instantiate theorems at concrete inputs. -/
def B0 : Boltzmann := ⟨fun _ _ _ _ => 0, fun _ _ _ _ => 0⟩

/-- A concrete configuration: a 4×4×4 grid with unit spacing. -/
def conf0 : Configuration := ⟨(4, 4, 4), 1⟩

/-- A transform bundle whose real↔spectral round trips are exact: `rfftn`
embeds a real grid into ℂ and `irfftn` takes real parts, while `fftfwd`
and `fftinv` interleave the real and imaginary parts of a spectrum along
the third axis, so that `fftfwd ∘ fftinv = id` on all complex grids. -/
def T5 : Transforms :=
  ⟨fun _ _ r ix => ⟨r (ix.1, ix.2.1, 2 * ix.2.2), r (ix.1, ix.2.1, 2 * ix.2.2 + 1)⟩,
   fun _ _ g ix =>
     if ix.2.2 % 2 = 0 then (g (ix.1, ix.2.1, ix.2.2 / 2)).re
     else (g (ix.1, ix.2.1, ix.2.2 / 2)).im,
   fun _ r i => (r i : ℂ),
   fun _ c i => (c i).re⟩

/-- Index rolling by complementary offsets along an axis of extent `n`
composes to the identity below `n`. -/
theorem roll_roll {n : ℕ} (i a b : ℕ) (hab : a + b = n) (hi : i < n) :
    ((i + a) % n + b) % n = i := by
  rw [Nat.mod_add_mod]
  have h : i + a + b = i + n := by omega
  rw [h, Nat.add_mod_right, Nat.mod_eq_of_lt hi]

/-- The DC-zeroed primordial spectrum is nonnegative for nonnegative
amplitude and pivot scale. -/
theorem PprimZ_nonneg (cosmo : Cosmology) (conf : Configuration)
    (hA : 0 ≤ cosmo.A_s) (hkp : 0 ≤ cosmo.k_pivot) (i : Ix) :
    0 ≤ PprimZ cosmo conf i := by
  unfold PprimZ Pprim
  split
  · exact le_refl 0
  · have hk : 0 ≤ kmag conf i := Real.sqrt_nonneg _
    have h1 : 0 ≤ (kmag conf i / cosmo.k_pivot) ^ (cosmo.n_s - 1) :=
      Real.rpow_nonneg (div_nonneg hk hkp) _
    have h2 : 0 ≤ kmag conf i ^ (-(3 : ℝ)) := Real.rpow_nonneg hk _
    have h3 : (0 : ℝ) ≤ 2 * Real.pi ^ 2 := by positivity
    exact mul_nonneg (mul_nonneg (mul_nonneg h3 hA) h1) h2

/-- Normalization bookkeeping of the two branches: scaling by
`sqrt(P / s³)` and then by `w * (s³ N) / sqrt N` equals scaling by
`sqrt(P w² (s³ N))` — the cell-volume and particle-count factors combine
into the box volume. -/
theorem scale_sqrt_eq (P w s : ℝ) (N : ℕ) (hP : 0 ≤ P) (hw : 0 ≤ w)
    (hs : 0 ≤ s) :
    Real.sqrt (P / s ^ 3) * (w * (s ^ 3 * (N : ℝ)) / Real.sqrt (N : ℝ))
      = Real.sqrt (P * w ^ 2 * (s ^ 3 * (N : ℝ))) := by
  rcases Nat.eq_zero_or_pos N with hN | hN
  · simp [hN]
  rcases eq_or_lt_of_le hs with hs0 | hs0
  · rw [← hs0]
    simp
  have h3 : (0 : ℝ) < s ^ 3 := by positivity
  have hNr : (0 : ℝ) < (N : ℝ) := by exact_mod_cast hN
  have hL : 0 ≤ Real.sqrt (P / s ^ 3) * (w * (s ^ 3 * (N : ℝ)) / Real.sqrt (N : ℝ)) :=
    mul_nonneg (Real.sqrt_nonneg _)
      (div_nonneg (mul_nonneg hw (by positivity)) (Real.sqrt_nonneg _))
  have key : P * w ^ 2 * (s ^ 3 * (N : ℝ))
      = (Real.sqrt (P / s ^ 3) * (w * (s ^ 3 * (N : ℝ)) / Real.sqrt (N : ℝ))) ^ 2 := by
    rw [mul_pow, Real.sq_sqrt (div_nonneg hP h3.le), div_pow, mul_pow,
      Real.sq_sqrt hNr.le]
    field_simp
    ring
  rw [key, Real.sqrt_sq hL]

/-- C1: the forward evaluation of `_safe_sqrt` equals `sqrt(x)` at every
entry, and its custom backward rule maps a cotangent `y_cot` to
`0.5 / y * y_cot` at every entry where the forward output `y` is nonzero
and to exactly `0` at every entry where `y` is zero. -/
theorem c1_safe_sqrt_vjp (x y y_cot : RField) (i : Ix) :
    _safe_sqrt x i = Real.sqrt (x i)
    ∧ _safe_sqrt_fwd x = (_safe_sqrt x, _safe_sqrt x)
    ∧ (y i ≠ 0 → _safe_sqrt_bwd y y_cot i = 0.5 / y i * y_cot i)
    ∧ (y i = 0 → _safe_sqrt_bwd y y_cot i = 0) := by
  refine ⟨rfl, rfl, fun h => ?_, fun h => ?_⟩ <;> simp [_safe_sqrt_bwd, h]

/-- C1 witness: the safe-sqrt VJP evaluated at the concrete forward values
`y = 4` (nonzero entry) and `y = 0` (zero entry). -/
theorem c1_safe_sqrt_vjp_witness :
    _safe_sqrt (fun _ => 4) ((0, 0, 0) : Ix) = Real.sqrt 4
    ∧ _safe_sqrt_bwd (fun _ => 4) (fun _ => 2) ((0, 0, 0) : Ix) = 0.5 / 4 * 2
    ∧ _safe_sqrt_bwd (fun _ => 0) (fun _ => 2) ((0, 0, 0) : Ix) = 0 :=
  ⟨(c1_safe_sqrt_vjp (fun _ => 4) (fun _ => 4) (fun _ => 2) (0, 0, 0)).1,
   (c1_safe_sqrt_vjp (fun _ => 4) (fun _ => 4) (fun _ => 2) (0, 0, 0)).2.2.1 (by norm_num),
   (c1_safe_sqrt_vjp (fun _ => 4) (fun _ => 0) (fun _ => 2) (0, 0, 0)).2.2.2 rfl⟩

/-- C3: in the non-Gaussian branch, the DC entry of `Pprim` is set to
exactly 0 after it is computed, and consequently the DC entry of the
white-noise modes scaled by `_safe_sqrt(Pprim / cell_volume)` is exactly 0,
for every cosmology with the non-Gaussianity flag set. -/
theorem c3_dc_mode_zero (cosmo : Cosmology) (conf : Configuration)
    (hflag : cosmo.f_nl_loc_ = true) :
    PprimZ cosmo conf ((0, 0, 0) : Ix) = 0
    ∧ ∀ modesC : CField, ngScaled cosmo conf modesC ((0, 0, 0) : Ix) = 0 := by
  refine ⟨by simp [PprimZ], fun modesC => ?_⟩
  simp [ngScaled, _safe_sqrt, PprimZ]

/-- C3 witness: the DC-mode invariant at a concrete cosmology with the
non-Gaussianity flag set, a concrete configuration, and concrete modes. -/
theorem c3_dc_mode_zero_witness :
    PprimZ ⟨1, 1, 1, 0, true⟩ conf0 ((0, 0, 0) : Ix) = 0
    ∧ ngScaled ⟨1, 1, 1, 0, true⟩ conf0 (fun _ => 1) ((0, 0, 0) : Ix) = 0 :=
  ⟨(c3_dc_mode_zero ⟨1, 1, 1, 0, true⟩ conf0 rfl).1,
   (c3_dc_mode_zero ⟨1, 1, 1, 0, true⟩ conf0 rfl).2 (fun _ => 1)⟩

/-- C7: `white_noise` returns the real-space normal samples directly, with
no transform, exactly when `real` is true and `unit_abs` is false; in the
other three flag combinations it forward-transforms with the orthonormal
convention, divides every spectral coefficient by its own absolute value
when `unit_abs` is true, and inverse-transforms back to real space with
the orthonormal convention when both `real` and `unit_abs` are true. -/
theorem c7_white_noise_structure (T : Transforms) (S : Sampler) (seed : ℕ)
    (conf : Configuration) :
    white_noise T S seed conf true false
      = .rspace (S.normal (S.PRNGKey seed) conf.ptcl_grid_shape)
    ∧ white_noise T S seed conf false false
      = .fourier (T.fftfwd .ortho conf.ptcl_grid_shape
          (S.normal (S.PRNGKey seed) conf.ptcl_grid_shape))
    ∧ white_noise T S seed conf false true
      = .fourier (fun i =>
          T.fftfwd .ortho conf.ptcl_grid_shape
              (S.normal (S.PRNGKey seed) conf.ptcl_grid_shape) i
            / (Complex.abs (T.fftfwd .ortho conf.ptcl_grid_shape
                (S.normal (S.PRNGKey seed) conf.ptcl_grid_shape) i) : ℂ))
    ∧ white_noise T S seed conf true true
      = .rspace (T.fftinv .ortho conf.ptcl_grid_shape (fun i =>
          T.fftfwd .ortho conf.ptcl_grid_shape
              (S.normal (S.PRNGKey seed) conf.ptcl_grid_shape) i
            / (Complex.abs (T.fftfwd .ortho conf.ptcl_grid_shape
                (S.normal (S.PRNGKey seed) conf.ptcl_grid_shape) i) : ℂ))) :=
  ⟨rfl, rfl, rfl, rfl⟩

/-- C8: `white_noise` is deterministic — in any sequence of calls, the
output of a call depends only on that call's own arguments (seed and
flags), not on the call history, because the sampler is a pure function of
the seed with no global generator state threaded between calls. -/
theorem c8_white_noise_deterministic (T : Transforms) (S : Sampler)
    (conf : Configuration) (calls₁ calls₂ : List (ℕ × Bool × Bool)) (i : ℕ)
    (h : calls₁[i]? = calls₂[i]?) :
    (whiteNoiseCalls T S conf calls₁)[i]?
      = (whiteNoiseCalls T S conf calls₂)[i]? := by
  simp only [whiteNoiseCalls, List.getElem?_map, h]

/-- C8 witness: two concrete call sequences with different histories but an
identical second call produce identical second outputs. -/
theorem c8_white_noise_deterministic_witness :
    (whiteNoiseCalls T0 S0 conf0 [(0, true, false), (7, false, true)])[1]?
      = (whiteNoiseCalls T0 S0 conf0 [(3, false, false), (7, false, true)])[1]? :=
  c8_white_noise_deterministic T0 S0 conf0
    [(0, true, false), (7, false, true)] [(3, false, false), (7, false, true)] 1 rfl

/-- C9: when the non-Gaussianity flag is unset, `linear_modes` never reads
`f_nl` — two cosmologies differing only in `f_nl`, both with the flag
unset, produce identical output on identical remaining inputs (the
hypothesis `hB` is the collaborator contract that `linear_power` does not
read `f_nl` either). -/
theorem c9_fnl_not_read (B : Boltzmann) (T : Transforms) (modes : MArr)
    (cosmo : Cosmology) (conf : Configuration) (a : Option ℝ) (real : Bool)
    (v : ℝ) (hflag : cosmo.f_nl_loc_ = false)
    (hB : ∀ k, B.linear_power k a (cosmo.withFnl v) conf
      = B.linear_power k a cosmo conf) :
    linear_modes B T modes (cosmo.withFnl v) conf a real
      = linear_modes B T modes cosmo conf a real := by
  have hflag2 : (cosmo.withFnl v).f_nl_loc_ = false := hflag
  have hg : gaussBranch B (cosmo.withFnl v) conf a (toFourier T conf modes)
      = gaussBranch B cosmo conf a (toFourier T conf modes) := by
    funext i
    simp only [gaussBranch, hB]
  simp only [linear_modes, hflag, hflag2, Bool.false_eq_true, if_false, hg]

/-- C9 witness: two concrete cosmologies differing only in `f_nl` (7 vs 0),
both with the flag unset, give identical `linear_modes` output. -/
theorem c9_fnl_not_read_witness :
    linear_modes B0 T0 (.fourier fun _ => 1) ⟨1, 1, 1, 7, false⟩ conf0 none false
      = linear_modes B0 T0 (.fourier fun _ => 1) ⟨1, 1, 1, 0, false⟩ conf0 none false :=
  c9_fnl_not_read B0 T0 (.fourier fun _ => 1) ⟨1, 1, 1, 0, false⟩ conf0 none false 7
    rfl (fun _ => rfl)

/-- C6: in the Gaussian branch, the spectral modes are multiplied by
`_safe_sqrt(P_lin(k) * box_vol)`, and when real-space output is requested
the final inverse transform is invoked with the physical grid-spacing
normalization, which is a different convention from the orthonormal one
used for the forward transform. -/
theorem c6_gauss_branch_scaling (B : Boltzmann) (T : Transforms) (modes : MArr)
    (cosmo : Cosmology) (conf : Configuration) (a : Option ℝ)
    (hflag : cosmo.f_nl_loc_ = false) :
    linear_modes B T modes cosmo conf a true
      = .rspace (T.fftinv (.phys conf.ptcl_spacing) conf.ptcl_grid_shape
          (fun i => toFourier T conf modes i
            * Complex.ofReal (_safe_sqrt
                (fun j => B.linear_power (kmag conf j) a cosmo conf * conf.box_vol) i)))
    ∧ Norm.phys conf.ptcl_spacing ≠ Norm.ortho := by
  refine ⟨?_, fun h => Norm.noConfusion h⟩
  simp only [linear_modes, hflag, Bool.false_eq_true, if_false, if_true]
  rfl

/-- C6 witness: the Gaussian-branch equation at a concrete Boltzmann
bundle, transforms, modes, cosmology and configuration. -/
theorem c6_gauss_branch_scaling_witness :
    linear_modes B0 T0 (.fourier fun _ => 1) ⟨1, 1, 1, 0, false⟩ conf0 none true
      = .rspace (T0.fftinv (.phys conf0.ptcl_spacing) conf0.ptcl_grid_shape
          (fun i => toFourier T0 conf0 (.fourier fun _ => 1) i
            * Complex.ofReal (_safe_sqrt
                (fun j => B0.linear_power (kmag conf0 j) none ⟨1, 1, 1, 0, false⟩ conf0
                  * conf0.box_vol) i)))
    ∧ Norm.phys conf0.ptcl_spacing ≠ Norm.ortho :=
  c6_gauss_branch_scaling B0 T0 (.fourier fun _ => 1) ⟨1, 1, 1, 0, false⟩ conf0 none rfl

/-- C2: in the non-Gaussian branch, the real-space fields are combined as
`gaussian_field + (3/5) * f_nl * (squared_field - mean(squared_field))`,
the result is cast (`astype`) to the configured precision, and after an
orthonormal forward transform the modes are multiplied by
`T_lin * k² * box_vol / sqrt(ptcl_num)`. -/
theorem c2_ng_combination (B : Boltzmann) (T : Transforms) (modes : MArr)
    (cosmo : Cosmology) (conf : Configuration) (a : Option ℝ)
    (hflag : cosmo.f_nl_loc_ = true) :
    linear_modes B T modes cosmo conf a false
      = .fourier (fun i =>
          T.fftfwd .ortho conf.ptcl_grid_shape
            (astype (fun x =>
              ngGauss T cosmo conf (toFourier T conf modes) x
                + 3 / 5 * cosmo.f_nl
                  * (ngSq T cosmo conf (toFourier T conf modes) x
                    - gridMean conf.ptcl_grid_shape
                        (ngSq T cosmo conf (toFourier T conf modes))))) i
            * Complex.ofReal
                (B.linear_transfer (kmag conf i) a cosmo conf * kmag conf i ^ 2
                  * conf.box_vol / Real.sqrt conf.ptcl_num)) := by
  simp only [linear_modes, hflag, if_true, Bool.false_eq_true, if_false]
  congr 1
  funext i
  simp only [ngBranch]
  have ht : Tlin B cosmo conf a i
      = B.linear_transfer (kmag conf i) a cosmo conf * kmag conf i ^ 2 := by
    simp only [Tlin]
    ring
  rw [ht]
  rfl

/-- C2 witness: the non-Gaussian combination equation at a concrete
Boltzmann bundle, transforms, modes, cosmology (flag set, `f_nl = 2`) and
configuration. -/
theorem c2_ng_combination_witness :
    linear_modes B0 T0 (.fourier fun _ => 1) ⟨1, 1, 1, 2, true⟩ conf0 none false
      = .fourier (fun i =>
          T0.fftfwd .ortho conf0.ptcl_grid_shape
            (astype (fun x =>
              ngGauss T0 ⟨1, 1, 1, 2, true⟩ conf0 (toFourier T0 conf0 (.fourier fun _ => 1)) x
                + 3 / 5 * (⟨1, 1, 1, 2, true⟩ : Cosmology).f_nl
                  * (ngSq T0 ⟨1, 1, 1, 2, true⟩ conf0 (toFourier T0 conf0 (.fourier fun _ => 1)) x
                    - gridMean conf0.ptcl_grid_shape
                        (ngSq T0 ⟨1, 1, 1, 2, true⟩ conf0
                          (toFourier T0 conf0 (.fourier fun _ => 1)))))) i
            * Complex.ofReal
                (B0.linear_transfer (kmag conf0 i) none ⟨1, 1, 1, 2, true⟩ conf0
                  * kmag conf0 i ^ 2 * conf0.box_vol / Real.sqrt conf0.ptcl_num)) :=
  c2_ng_combination B0 T0 (.fourier fun _ => 1) ⟨1, 1, 1, 2, true⟩ conf0 none rfl

/-- C4 counterexample: on a 6×4×4 grid the crop does not restore the
half-spectrum shape — the padded first axis has extent 8, and the slice
`[6//4 : -6//4] = [1 : -2]` (Python's `-6//4 = -2`) keeps only 5 of its
entries, not 6 — so the claim that pad-then-crop restores the shapes
exactly for any grid is false. -/
theorem c4_pad_crop_counterexample :
    cropShape ⟨(6, 4, 4), 1⟩ (padHalfShape ⟨(6, 4, 4), 1⟩)
      ≠ halfShape (⟨(6, 4, 4), 1⟩ : Configuration).ptcl_grid_shape := by
  decide

/-- C4 (amended): when every grid extent is divisible by 4 — the spec's
documented precondition for exact anti-aliasing margins — the
anti-aliasing pad step followed by the crop step, with no intervening
nonlinearity, returns any input half-spectrum unchanged at every index of
the original half-spectrum shape (the `(3/2)³` factors cancel exactly in
exact arithmetic), and the crop restores the padded shape to the original
half-spectrum shape exactly.  For an extent not divisible by 4 the slice
trims `⌊n/4⌋` at the front and `⌈n/4⌉` at the back and the shape is not
restored. -/
theorem c4_pad_crop_roundtrip (conf : Configuration) (f : CField) (i j l : ℕ)
    (hd₀ : 4 ∣ conf.ptcl_grid_shape.1) (hd₁ : 4 ∣ conf.ptcl_grid_shape.2.1)
    (hd₂ : 4 ∣ conf.ptcl_grid_shape.2.2)
    (h₀ : 4 ≤ conf.ptcl_grid_shape.1) (h₁ : 4 ≤ conf.ptcl_grid_shape.2.1)
    (h₂ : 4 ≤ conf.ptcl_grid_shape.2.2)
    (hi : i < conf.ptcl_grid_shape.1) (hj : j < conf.ptcl_grid_shape.2.1)
    (hl : l < conf.ptcl_grid_shape.2.2 / 2 + 1) :
    ngCrop conf (ngPad conf f) (i, j, l) = f (i, j, l)
    ∧ cropShape conf (padHalfShape conf) = halfShape conf.ptcl_grid_shape := by
  refine ⟨?_, ?_⟩
  · simp only [ngCrop, ngPad, ifftshift01, fftshift01, crop3, pad3, cropShape,
      padHalfShape]
    set n₀ := conf.ptcl_grid_shape.1 with hn₀
    set n₁ := conf.ptcl_grid_shape.2.1 with hn₁
    set n₂ := conf.ptcl_grid_shape.2.2 with hn₂
    have hm₀ : n₀ + 2 * (n₀ / 4) - (n₀ / 4 + (n₀ + 3) / 4) = n₀ := by omega
    have hm₁ : n₁ + 2 * (n₁ / 4) - (n₁ / 4 + (n₁ + 3) / 4) = n₁ := by omega
    rw [hm₀, hm₁]
    have hi' : (i + n₀ / 2) % n₀ < n₀ := Nat.mod_lt _ (by omega)
    have hj' : (j + n₁ / 2) % n₁ < n₁ := Nat.mod_lt _ (by omega)
    have eA : (((i + n₀ / 2) % n₀ + n₀ / 4 + (n₀ + 2 * (n₀ / 4) - (n₀ + 2 * (n₀ / 4)) / 2))
          % (n₀ + 2 * (n₀ / 4)) + (n₀ + 2 * (n₀ / 4)) / 2) % (n₀ + 2 * (n₀ / 4))
        = (i + n₀ / 2) % n₀ + n₀ / 4 :=
      roll_roll _ _ _ (by omega) (by omega)
    have eB : (((j + n₁ / 2) % n₁ + n₁ / 4 + (n₁ + 2 * (n₁ / 4) - (n₁ + 2 * (n₁ / 4)) / 2))
          % (n₁ + 2 * (n₁ / 4)) + (n₁ + 2 * (n₁ / 4)) / 2) % (n₁ + 2 * (n₁ / 4))
        = (j + n₁ / 2) % n₁ + n₁ / 4 :=
      roll_roll _ _ _ (by omega) (by omega)
    rw [eA, eB, if_pos ⟨by omega, by omega, by omega, by omega, hl⟩]
    have eC : (i + n₀ / 2) % n₀ + n₀ / 4 - n₀ / 4 = (i + n₀ / 2) % n₀ := by omega
    have eD : (j + n₁ / 2) % n₁ + n₁ / 4 - n₁ / 4 = (j + n₁ / 2) % n₁ := by omega
    rw [eC, eD]
    have eE : ((i + n₀ / 2) % n₀ + (n₀ - n₀ / 2)) % n₀ = i :=
      roll_roll _ _ _ (by omega) hi
    have eF : ((j + n₁ / 2) % n₁ + (n₁ - n₁ / 2)) % n₁ = j :=
      roll_roll _ _ _ (by omega) hj
    rw [eE, eF, mul_div_cancel_right₀ _ (by norm_num : ((3 / 2 : ℂ)) ^ 3 ≠ 0)]
  · simp only [cropShape, padHalfShape, halfShape, Prod.mk.injEq]
    omega

/-- C4 witness: the pad/crop round trip on a concrete 4×4×4 grid (extents
divisible by 4), a concrete field, and a concrete in-range index. -/
theorem c4_pad_crop_roundtrip_witness :
    ngCrop conf0 (ngPad conf0 (fun _ => 1)) (0, 0, 0) = 1
    ∧ cropShape conf0 (padHalfShape conf0) = halfShape conf0.ptcl_grid_shape :=
  c4_pad_crop_roundtrip conf0 (fun _ => 1) 0 0 0 ⟨1, rfl⟩ ⟨1, rfl⟩ ⟨1, rfl⟩
    (by decide) (by decide) (by decide) (by decide) (by decide) (by decide)

/-- C5: when the non-Gaussianity flag is set and `f_nl = 0`, the
non-Gaussian branch of `linear_modes` produces the same output field as
the Gaussian-only branch with the flag unset, for every white-noise input,
scale factor, and output representation.  The hypotheses are the
collaborator contracts: exact real↔spectral round trips on the original
grid, a nonnegative transfer function, and the relation
`P_lin = P_prim · (T_lin k²)²` between the spec-modelled Boltzmann
evaluators. -/
theorem c5_fnl_zero_reduces (B : Boltzmann) (T : Transforms) (modes : MArr)
    (cosmo : Cosmology) (conf : Configuration) (a : Option ℝ) (real : Bool)
    (hflag : cosmo.f_nl_loc_ = true) (hf : cosmo.f_nl = 0)
    (hA : 0 ≤ cosmo.A_s) (hkp : 0 ≤ cosmo.k_pivot)
    (hs : 0 ≤ conf.ptcl_spacing)
    (ht : ∀ i : Ix, 0 ≤ B.linear_transfer (kmag conf i) a cosmo conf)
    (hround1 : ∀ g : RField,
      T.irfftn conf.ptcl_grid_shape (T.rfftn conf.ptcl_grid_shape g) = g)
    (hround2 : ∀ g : CField,
      T.fftfwd .ortho conf.ptcl_grid_shape
        (T.fftinv .ortho conf.ptcl_grid_shape g) = g)
    (hP : ∀ i : Ix, B.linear_power (kmag conf i) a (cosmo.withFlag false) conf
      = PprimZ cosmo conf i
        * (B.linear_transfer (kmag conf i) a cosmo conf * kmag conf i ^ 2) ^ 2) :
    linear_modes B T modes cosmo conf a real
      = linear_modes B T modes (cosmo.withFlag false) conf a real := by
  have hflag2 : (cosmo.withFlag false).f_nl_loc_ = false := rfl
  have hout : ngBranch B T cosmo conf a (toFourier T conf modes)
      = gaussBranch B (cosmo.withFlag false) conf a (toFourier T conf modes) := by
    have hcomb : (fun x => ngGauss T cosmo conf (toFourier T conf modes) x
        + 3 / 5 * cosmo.f_nl_loc
          * (ngSq T cosmo conf (toFourier T conf modes) x
            - gridMean conf.ptcl_grid_shape
                (ngSq T cosmo conf (toFourier T conf modes))))
        = T.fftinv .ortho conf.ptcl_grid_shape
            (ngScaled cosmo conf (toFourier T conf modes)) := by
      funext x
      simp only [Cosmology.f_nl_loc, hf, mul_zero, zero_mul, add_zero,
        ngGauss, ngHalf, hround1]
    funext i
    have hreal : Real.sqrt (PprimZ cosmo conf i / conf.ptcl_cell_vol)
        * (Tlin B cosmo conf a i * conf.box_vol / Real.sqrt conf.ptcl_num)
        = Real.sqrt (B.linear_power (kmag conf i) a (cosmo.withFlag false) conf
            * conf.box_vol) := by
      rw [hP i]
      have hTl : Tlin B cosmo conf a i
          = B.linear_transfer (kmag conf i) a cosmo conf * kmag conf i ^ 2 := by
        simp only [Tlin]
        ring
      rw [hTl]
      have hw : 0 ≤ B.linear_transfer (kmag conf i) a cosmo conf * kmag conf i ^ 2 :=
        mul_nonneg (ht i) (sq_nonneg _)
      have hPz : 0 ≤ PprimZ cosmo conf i := PprimZ_nonneg cosmo conf hA hkp i
      simpa only [Configuration.ptcl_cell_vol, Configuration.box_vol] using
        scale_sqrt_eq (PprimZ cosmo conf i)
          (B.linear_transfer (kmag conf i) a cosmo conf * kmag conf i ^ 2)
          conf.ptcl_spacing conf.ptcl_num hPz hw hs
    simp only [ngBranch, astype, hcomb, hround2, gaussBranch, ngScaled, _safe_sqrt]
    rw [mul_assoc, ← Complex.ofReal_mul, hreal]
  simp only [linear_modes, hflag, hflag2, if_true, Bool.false_eq_true, if_false, hout]

/-- C5 witness: the `f_nl = 0` reduction at a concrete transform bundle
with exact round trips (`T5`), the zero Boltzmann bundle, a concrete
cosmology (flag set vs unset) and a concrete 4×4×4 configuration. -/
theorem c5_fnl_zero_reduces_witness :
    linear_modes B0 T5 (.fourier fun _ => 1) ⟨0, 1, 1, 0, true⟩ conf0 none false
      = linear_modes B0 T5 (.fourier fun _ => 1) ⟨0, 1, 1, 0, false⟩ conf0 none false := by
  have h1 : ∀ g : RField,
      T5.irfftn conf0.ptcl_grid_shape (T5.rfftn conf0.ptcl_grid_shape g) = g := by
    intro g
    funext i
    exact Complex.ofReal_re (g i)
  have h2 : ∀ g : CField,
      T5.fftfwd .ortho conf0.ptcl_grid_shape
        (T5.fftinv .ortho conf0.ptcl_grid_shape g) = g := by
    intro g
    funext ix
    refine Complex.ext ?_ ?_
    · have h0 : 2 * ix.2.2 % 2 = 0 := by omega
      have hd : 2 * ix.2.2 / 2 = ix.2.2 := by omega
      simp [T5, h0, hd]
    · have h0 : ¬(2 * ix.2.2 + 1) % 2 = 0 := by omega
      have hd : (2 * ix.2.2 + 1) / 2 = ix.2.2 := by omega
      simp [T5, h0, hd]
  exact c5_fnl_zero_reduces B0 T5 (.fourier fun _ => 1) ⟨0, 1, 1, 0, true⟩ conf0
    none false rfl rfl le_rfl zero_le_one zero_le_one (fun _ => le_rfl) h1 h2
    (fun i => by simp [B0])

/-- C10 counterexample: a modes array of shape (1,1,1) disagrees with the
configured 4×4×4 particle grid (whose half-spectrum wavenumber grid has
shape (4,4,3)), yet the Gaussian-branch scaling succeeds by silently
broadcasting instead of failing: the claim that `linear_modes` fails fast
on every shape mismatch is false. -/
theorem c10_shape_mismatch_counterexample :
    isOkB (gaussScaleShaped B0 ⟨(1, 1, 1), fun _ => 1⟩ ⟨1, 1, 1, 0, false⟩ conf0 none)
      = true
    ∧ ((1, 1, 1) : Shape) ≠ conf0.ptcl_grid_shape
    ∧ ((1, 1, 1) : Shape) ≠ halfShape conf0.ptcl_grid_shape := by
  exact ⟨rfl, by decide, by decide⟩

/-- C10 amended: `linear_modes` performs no explicit shape validation; a
mismatch between the modes array and the wavenumber grid that is
incompatible under the array library's broadcasting rules (an axis pair
with different extents, neither equal to 1) raises the library's
broadcast error, while broadcast-compatible mismatches (size-1 axes) are
silently broadcast. -/
theorem c10_incompatible_shape_errors (B : Boltzmann) (modes : ShapedC)
    (cosmo : Cosmology) (conf : Configuration) (a : Option ℝ)
    (h : (modes.shape.1 ≠ (halfShape conf.ptcl_grid_shape).1
          ∧ modes.shape.1 ≠ 1 ∧ (halfShape conf.ptcl_grid_shape).1 ≠ 1)
      ∨ (modes.shape.2.1 ≠ (halfShape conf.ptcl_grid_shape).2.1
          ∧ modes.shape.2.1 ≠ 1 ∧ (halfShape conf.ptcl_grid_shape).2.1 ≠ 1)
      ∨ (modes.shape.2.2 ≠ (halfShape conf.ptcl_grid_shape).2.2
          ∧ modes.shape.2.2 ≠ 1 ∧ (halfShape conf.ptcl_grid_shape).2.2 ≠ 1)) :
    gaussScaleShaped B modes cosmo conf a = .error BroadcastError.incompatible := by
  unfold gaussScaleShaped bmul
  rcases h with ⟨h1, h2, h3⟩ | ⟨h1, h2, h3⟩ | ⟨h1, h2, h3⟩
  · have e : broadcastDim modes.shape.1 (halfShape conf.ptcl_grid_shape).1 = none := by
      unfold broadcastDim
      rw [if_neg h1, if_neg h2, if_neg h3]
    rw [e]
  · have e : broadcastDim modes.shape.2.1 (halfShape conf.ptcl_grid_shape).2.1 = none := by
      unfold broadcastDim
      rw [if_neg h1, if_neg h2, if_neg h3]
    rw [e]
    cases broadcastDim modes.shape.1 (halfShape conf.ptcl_grid_shape).1 <;> rfl
  · have e : broadcastDim modes.shape.2.2 (halfShape conf.ptcl_grid_shape).2.2 = none := by
      unfold broadcastDim
      rw [if_neg h1, if_neg h2, if_neg h3]
    rw [e]
    cases broadcastDim modes.shape.1 (halfShape conf.ptcl_grid_shape).1 <;>
      cases broadcastDim modes.shape.2.1 (halfShape conf.ptcl_grid_shape).2.1 <;> rfl

/-- C10 amended witness: a modes array of shape (4,4,5) against a 4×4×4
grid — incompatible only on the third (half-spectrum) axis, 5 vs 3 —
raises the broadcast error. -/
theorem c10_incompatible_shape_errors_witness :
    gaussScaleShaped B0 ⟨(4, 4, 5), fun _ => 1⟩ ⟨1, 1, 1, 0, false⟩ conf0 none
      = .error BroadcastError.incompatible :=
  c10_incompatible_shape_errors B0 ⟨(4, 4, 5), fun _ => 1⟩ ⟨1, 1, 1, 0, false⟩ conf0 none
    (Or.inr (Or.inr ⟨by decide, by decide, by decide⟩))

end

end Pmwd
